import Mathlib

/-!
Verification of the postcards program (src/main.py) against its
natural-language specification.

The Python source is shallowly embedded below: pure functions become Lean
functions, Python floats are modelled exactly by `ℚ`, Python sets are
modelled as duplicate-free insertion lists, exceptions become
`Except String` / `Option` results, and the external collaborators
(pycountry lookup tables, PIL font measurement) become explicit function
parameters.
-/

/- ================= LocationAggregator: choose_name ================= -/

/-- The recognised fields of a `NameCandidateSet` (the keys of the
`names` dictionary built by `get_names`). -/
inductive NField where
  | name | street | adminArea6 | adminArea5 | adminArea4 | adminArea3
  | adminArea2 | adminArea1
deriving DecidableEq

/-- `NameCandidateSet`: one candidate list per field.  A Python set is
modelled as a duplicate-free list; `pop` (which returns an arbitrary
element of a Python set) is modelled as taking the head. -/
structure NameCandidateSet where
  name : List String
  street : List String
  adminArea6 : List String
  adminArea5 : List String
  adminArea4 : List String
  adminArea3 : List String
  adminArea2 : List String
  adminArea1 : List String
deriving DecidableEq

def NameCandidateSet.get (ns : NameCandidateSet) : NField → List String
  | .name => ns.name
  | .street => ns.street
  | .adminArea6 => ns.adminArea6
  | .adminArea5 => ns.adminArea5
  | .adminArea4 => ns.adminArea4
  | .adminArea3 => ns.adminArea3
  | .adminArea2 => ns.adminArea2
  | .adminArea1 => ns.adminArea1

/-- `preference_list` from `choose_name` in src/main.py, in the exact
source order (adminArea3 before adminArea4, adminArea2 absent). -/
def preference_list : List NField :=
  [.name, .street, .adminArea6, .adminArea5, .adminArea3, .adminArea4, .adminArea1]

/-- `contains_digit` from src/main.py: true if any digit exists in the text. -/
def contains_digit (s : String) : Bool := s.data.any Char.isDigit

/-- The loop body of `choose_name` from src/main.py, recursing over the
remaining preference list.  Mirrors the Python control flow exactly:
a non-empty field with fewer than 3 values is popped; a popped street
value containing a digit is discarded and the loop continues; any other
popped value is returned; otherwise the loop continues. -/
def choose_name_from (ns : NameCandidateSet) : List NField → Option String
  | [] => Option.none
  | f :: rest =>
    let s := ns.get f
    if s.isEmpty then choose_name_from ns rest
    else if s.length < 3 then
      let tmp := s.headD ""
      if f = NField.street then
        if contains_digit tmp then choose_name_from ns rest
        else Option.some tmp
      else Option.some tmp
    else choose_name_from ns rest

/-- `choose_name` from src/main.py; `Option.none` models the implicit
Python `None` return (the spec's `NoNameFound`). -/
def choose_name (ns : NameCandidateSet) : Option String :=
  choose_name_from ns preference_list

/-- Written from the claim's words (refinement side): return the value
popped from the first field in strict priority order whose candidate set
is non-empty and has fewer than 3 distinct values, except that when that
field is street and the popped value contains a digit, the value is
rejected and evaluation moves to the next field in priority order. -/
def choose_name_claim_from (ns : NameCandidateSet) : List NField → Option String
  | [] => Option.none
  | f :: rest =>
    if ¬ (ns.get f).isEmpty ∧ (ns.get f).length < 3 then
      if f = NField.street ∧ contains_digit ((ns.get f).headD "") then
        choose_name_claim_from ns rest
      else Option.some ((ns.get f).headD "")
    else choose_name_claim_from ns rest

/-- The claim's selection procedure applied to the source's priority order. -/
def choose_name_claim (ns : NameCandidateSet) : Option String :=
  choose_name_claim_from ns preference_list

/-- A candidate set whose only non-empty field is street, holding the single
digit-bearing value from the spec's example. -/
def street_only_set : NameCandidateSet :=
  ⟨[], ["123 Main St"], [], [], [], [], [], []⟩

/-- A candidate set whose name field holds exactly 3 distinct values and whose
street field holds one digit-free value. -/
def three_names_set : NameCandidateSet :=
  ⟨["A", "B", "C"], ["Main St"], [], [], [], [], [], []⟩

lemma choose_name_from_eq_claim (ns : NameCandidateSet) :
    ∀ l : List NField, choose_name_from ns l = choose_name_claim_from ns l := by
  intro l
  induction l with
  | nil => rfl
  | cons f rest ih =>
    by_cases h1 : (ns.get f).isEmpty
    · have h1' : ¬ (¬ (ns.get f).isEmpty ∧ (ns.get f).length < 3) := by
        intro hc; exact hc.1 h1
      simp only [choose_name_from, choose_name_claim_from, if_pos h1, if_neg h1', ih]
    · by_cases h2 : (ns.get f).length < 3
      · have h2' : ¬ (ns.get f).isEmpty ∧ (ns.get f).length < 3 := ⟨h1, h2⟩
        by_cases h3 : f = NField.street
        · by_cases h4 : contains_digit ((ns.get f).headD "")
          · have h34 : f = NField.street ∧ contains_digit ((ns.get f).headD "") := ⟨h3, h4⟩
            simp only [choose_name_from, choose_name_claim_from,
              if_neg h1, if_pos h2, if_pos h2', if_pos h3, if_pos h4, if_pos h34, ih]
          · have h34 : ¬ (f = NField.street ∧ contains_digit ((ns.get f).headD "")) := by
              intro hc; exact h4 hc.2
            simp only [choose_name_from, choose_name_claim_from,
              if_neg h1, if_pos h2, if_pos h2', if_pos h3, if_neg h4, if_neg h34]
        · have h34 : ¬ (f = NField.street ∧ contains_digit ((ns.get f).headD "")) := by
            intro hc; exact h3 hc.1
          simp only [choose_name_from, choose_name_claim_from,
            if_neg h1, if_pos h2, if_pos h2', if_neg h3, if_neg h34]
      · have h2' : ¬ (¬ (ns.get f).isEmpty ∧ (ns.get f).length < 3) := by
          intro hc; exact h2 hc.2
        simp only [choose_name_from, choose_name_claim_from,
          if_neg h1, if_neg h2, if_neg h2', ih]

/-- C1: `choose_name` returns the value popped from the first field in the
strict priority order name, street, adminArea6, adminArea5, adminArea3,
adminArea4, adminArea1 whose candidate set is non-empty and has fewer than 3
distinct values, except that a street value containing a digit is rejected and
evaluation moves to the next field; in particular a set whose only non-empty
field is street with the single value "123 Main St" yields no name, and a set
whose name field holds exactly 3 distinct values skips name and falls through
to street. -/
theorem choose_name_priority :
    (∀ ns : NameCandidateSet, choose_name ns = choose_name_claim ns)
    ∧ choose_name street_only_set = Option.none
    ∧ choose_name three_names_set = Option.some "Main St" := by
  refine ⟨fun ns => choose_name_from_eq_claim ns preference_list, ?_, ?_⟩
  · rfl
  · rfl

/- ================= ColorDecider ================= -/

/-- `get_average_color` from src/main.py, applied to the single pixel the PIL
resize-to-1x1 reduction yields (the reduction itself is a PIL call, external
to the source; the decision logic below is what the source implements).
Returns the RGB tuple together with the brightness metric sum(rgb)/3,
modelled exactly in `ℚ`. -/
def get_average_color (rgb : ℕ × ℕ × ℕ) : (ℕ × ℕ × ℕ) × ℚ :=
  (rgb, ((rgb.1 : ℚ) + rgb.2.1 + rgb.2.2) / 3)

/-- `get_font_color` from src/main.py: white primary when the brightness
metric is strictly below 128, black primary otherwise; the sampled color is
the secondary in both branches. -/
def get_font_color (acm : (ℕ × ℕ × ℕ) × ℚ) : (ℕ × ℕ × ℕ) × (ℕ × ℕ × ℕ) :=
  if acm.2 < 128 then ((255, 255, 255), acm.1)
  else ((0, 0, 0), acm.1)

/- ================= ImageComposer: resize / crop geometry ================= -/

/-- `get_output_size` from src/main.py: portrait sources get a 1200x1800
canvas, everything else (square included) 1800x1200. -/
def get_output_size (w h : ℕ) : ℕ × ℕ :=
  if w < h then (1200, 1800) else (1800, 1200)

/-- The EXIF-orientation rotation from `get_original_image` in src/main.py,
at the level of image dimensions: codes 6 and 8 rotate by 270 and 90 degrees
(swapping width and height), code 3 rotates by 180 degrees (dimensions
unchanged), anything else leaves the image alone. -/
def rotate_dims (orientation : Option ℕ) (w h : ℕ) : ℕ × ℕ :=
  match orientation with
  | Option.some 6 => (h, w)
  | Option.some 8 => (h, w)
  | _ => (w, h)

/-- Python's built-in `round`: nearest integer, ties to the even neighbour. -/
def py_round (q : ℚ) : ℤ :=
  let n := ⌊q⌋
  let r := q - n
  if r < 1/2 then n
  else if 1/2 < r then n + 1
  else if Even n then n else n + 1

/-- The resize step of `get_original_image` from src/main.py: a source wider
than tall is scaled to the canvas width, anything else to the canvas height,
the other dimension following the aspect ratio through Python `round`. -/
def resize_dims (w h cw ch : ℕ) : ℤ × ℤ :=
  if h < w then ((cw : ℤ), py_round ((cw : ℚ) / w * h))
  else (py_round ((ch : ℚ) / h * w), (ch : ℤ))

/-- `get_original_image` from src/main.py at the level of dimensions: the
canvas size is chosen from the PRE-rotation dimensions, the resize branch
from the post-rotation ones.  Returns (scaled dimensions, canvas size). -/
def get_original_image_dims (w h : ℕ) (orientation : Option ℕ) :
    (ℤ × ℤ) × ℕ × ℕ :=
  let c := get_output_size w h
  let r := rotate_dims orientation w h
  (resize_dims r.1 r.2 c.1 c.2, c)

/-- The crop box `(0, 0, width, height)` used by `create_image` in
src/main.py to cut the scaled image down to the canvas. -/
def create_image_crop_box (cw ch : ℕ) : ℤ × ℤ × ℤ × ℤ :=
  (0, 0, (cw : ℤ), (ch : ℤ))

/- ================= theorems for C2 and C3 ================= -/

/-- C2 counterexample: on a region averaging to (128,128,128) the brightness
metric is exactly 128 and the code takes the black-primary branch, not the
white-primary branch the claim states for the boundary. -/
theorem get_font_color_boundary_cex :
    get_font_color (get_average_color (128, 128, 128)) = ((0, 0, 0), (128, 128, 128))
    ∧ (get_average_color (128, 128, 128)).2 = 128
    ∧ ((0, 0, 0) : ℕ × ℕ × ℕ) ≠ (255, 255, 255) := by
  refine ⟨?_, ?_, by decide⟩
  · show (if ((128 : ℚ) + 128 + 128) / 3 < 128 then _ else _) = _
    norm_num [get_font_color, get_average_color]
  · show ((128 : ℚ) + 128 + 128) / 3 = 128
    norm_num

/-- C2 amended: the decision uses brightness = unweighted mean of the three
channels; primary is white with the sampled color as secondary exactly when
brightness is strictly below 128 (channel sum below 384), black otherwise,
and the boundary brightness 128 resolves to the black-primary branch; a pure
white average gives black primary and a pure black average white primary. -/
theorem get_font_color_threshold :
    (∀ rgb : ℕ × ℕ × ℕ,
      get_font_color (get_average_color rgb) =
        if ((rgb.1 : ℚ) + rgb.2.1 + rgb.2.2) < 384 then ((255, 255, 255), rgb)
        else ((0, 0, 0), rgb))
    ∧ get_font_color (get_average_color (128, 128, 128)) = ((0, 0, 0), (128, 128, 128))
    ∧ get_font_color (get_average_color (255, 255, 255)) = ((0, 0, 0), (255, 255, 255))
    ∧ get_font_color (get_average_color (0, 0, 0)) = ((255, 255, 255), (0, 0, 0)) := by
  have key : ∀ rgb : ℕ × ℕ × ℕ,
      get_font_color (get_average_color rgb) =
        if ((rgb.1 : ℚ) + rgb.2.1 + rgb.2.2) < 384 then ((255, 255, 255), rgb)
        else ((0, 0, 0), rgb) := by
    intro rgb
    have h3 : (0 : ℚ) < 3 := by norm_num
    have hiff : (((rgb.1 : ℚ) + rgb.2.1 + rgb.2.2) / 3 < 128) ↔
        (((rgb.1 : ℚ) + rgb.2.1 + rgb.2.2) < 384) := by
      rw [div_lt_iff₀ h3]; norm_num
    by_cases h : ((rgb.1 : ℚ) + rgb.2.1 + rgb.2.2) < 384
    · rw [if_pos h]
      show (if ((rgb.1 : ℚ) + rgb.2.1 + rgb.2.2) / 3 < 128 then _ else _) = _
      rw [if_pos (hiff.mpr h)]; rfl
    · rw [if_neg h]
      show (if ((rgb.1 : ℚ) + rgb.2.1 + rgb.2.2) / 3 < 128 then _ else _) = _
      rw [if_neg (fun hc => h (hiff.mp hc))]; rfl
  refine ⟨key, ?_, ?_, ?_⟩
  · rw [key (128, 128, 128)]; norm_num
  · rw [key (255, 255, 255)]; norm_num
  · rw [key (0, 0, 0)]; norm_num

/-- C3: a square 2000x2000 source with no orientation hint gets the 1800x1200
canvas but is scaled to 1200x1200 (factor ch/sh = 3/5, not the claimed
max(cw/sw, ch/sh) = 9/10 which would give 1800x1800): the scaled width 1200
is below the canvas width 1800, so the crop to the canvas is letterboxed,
contradicting the claim and the comment in the source. -/
theorem get_original_image_letterbox :
    get_original_image_dims 2000 2000 Option.none = ((1200, 1200), 1800, 1200)
    ∧ max ((1800 : ℚ) / 2000) ((1200 : ℚ) / 2000) * 2000 = 1800
    ∧ ¬ ((1800 : ℤ) ≤ 1200) := by
  refine ⟨?_, by norm_num, by decide⟩
  show ((py_round ((1200 : ℚ) / 2000 * 2000), (1200 : ℤ)), 1800, 1200) = _
  have : py_round ((1200 : ℚ) / 2000 * 2000) = 1200 := by
    norm_num [py_round]
  rw [this]

/- ================= LocationAggregator: get_names ================= -/

/-- A value stored into one of the candidate sets by `get_names`.  Python sets
are heterogeneous: besides strings, the adminArea3 branch of the source adds
the raw return value of `subdivisions.get` — a pycountry Subdivision object,
or Python `None` when the lookup misses. -/
inductive PyVal where
  | str : String → PyVal
  | subdivObj : String → String → PyVal
  | pynone : PyVal
deriving DecidableEq

/-- A pycountry country record: its alpha-2 code, its display name, and the
string Python produces when the object itself is formatted (its repr, which
is NOT the alpha-2 code). -/
structure Country where
  alpha2 : String
  displayName : String
  strRepr : String
deriving DecidableEq

/-- A pycountry subdivision record: its full code and display name. -/
structure Subdivision where
  code : String
  displayName : String
deriving DecidableEq

/-- A Mapquest location record: each recognised field either absent
(`Option.none`) or present with a string value (possibly empty). -/
structure LocationCandidate where
  street : Option String
  adminArea6 : Option String
  adminArea5 : Option String
  adminArea4 : Option String
  adminArea3 : Option String
  adminArea2 : Option String
  adminArea1 : Option String
  name : Option String
deriving DecidableEq

/-- The eight candidate sets built by `get_names`, in the source's dict
insertion order. -/
structure RawNameSets where
  street : List PyVal
  adminArea6 : List PyVal
  adminArea5 : List PyVal
  adminArea4 : List PyVal
  adminArea3 : List PyVal
  adminArea2 : List PyVal
  adminArea1 : List PyVal
  name : List PyVal
deriving DecidableEq

def empty_raw_sets : RawNameSets := ⟨[], [], [], [], [], [], [], []⟩

/-- Python `set.add`: insert if not already present. -/
def insert_val (l : List PyVal) (v : PyVal) : List PyVal :=
  if v ∈ l then l else l ++ [v]

/-- One plain-field step of `get_names`: skip absent or empty values,
otherwise add the string itself. -/
def add_plain (l : List PyVal) (v : Option String) : List PyVal :=
  match v with
  | Option.none => l
  | Option.some s => if s = "" then l else insert_val l (PyVal.str s)

/-- The adminArea1 branch of `get_names`:
`names[field].add(countries.get(alpha_2=location[field]).name)`.
When the country lookup misses, `countries.get` returns Python `None` and the
immediate `.name` attribute access raises AttributeError, modelled as
`Except.error`. -/
def add_adminArea1 (countries_get : String → Option Country)
    (l : List PyVal) (v : Option String) : Except String (List PyVal) :=
  match v with
  | Option.none => Except.ok l
  | Option.some s =>
    if s = "" then Except.ok l
    else
      match countries_get s with
      | Option.none => Except.error "AttributeError: NoneType object has no attribute name"
      | Option.some c => Except.ok (insert_val l (PyVal.str c.displayName))

/-- The adminArea3 branch of `get_names`:
`names[field].add(subdivisions.get(code = "{0}-{1}".format(countries.get(alpha_2 = location["adminArea1"]), location[field])))`.
Reading `location["adminArea1"]` raises KeyError when the key is absent; the
format call stringifies the Country OBJECT (its repr, or the string "None" on
a lookup miss), and the raw return of `subdivisions.get` — a Subdivision
object or Python `None` — is added to the set without any `.name` access. -/
def add_adminArea3 (countries_get : String → Option Country)
    (subdivisions_get : String → Option Subdivision)
    (loc : LocationCandidate) (l : List PyVal) : Except String (List PyVal) :=
  match loc.adminArea3 with
  | Option.none => Except.ok l
  | Option.some s =>
    if s = "" then Except.ok l
    else
      match loc.adminArea1 with
      | Option.none => Except.error "KeyError: adminArea1"
      | Option.some a1 =>
        let countryStr :=
          match countries_get a1 with
          | Option.some c => c.strRepr
          | Option.none => "None"
        let inserted :=
          match subdivisions_get (countryStr ++ "-" ++ s) with
          | Option.some sd => PyVal.subdivObj sd.code sd.displayName
          | Option.none => PyVal.pynone
        Except.ok (insert_val l inserted)

/-- The inner field loop of `get_names` for one location, visiting the fields
in the dict insertion order street, adminArea6, adminArea5, adminArea4,
adminArea3, adminArea2, adminArea1, name (so an adminArea3 exception fires
before an adminArea1 one, as in the source). -/
def process_location (countries_get : String → Option Country)
    (subdivisions_get : String → Option Subdivision)
    (acc : RawNameSets) (loc : LocationCandidate) : Except String RawNameSets := do
  let street := add_plain acc.street loc.street
  let a6 := add_plain acc.adminArea6 loc.adminArea6
  let a5 := add_plain acc.adminArea5 loc.adminArea5
  let a4 := add_plain acc.adminArea4 loc.adminArea4
  let a3 ← add_adminArea3 countries_get subdivisions_get loc acc.adminArea3
  let a2 := add_plain acc.adminArea2 loc.adminArea2
  let a1 ← add_adminArea1 countries_get acc.adminArea1 loc.adminArea1
  let nm := add_plain acc.name loc.name
  return ⟨street, a6, a5, a4, a3, a2, a1, nm⟩

/-- `get_names` from src/main.py, parameterised by the two pycountry lookup
tables. -/
def get_names (countries_get : String → Option Country)
    (subdivisions_get : String → Option Subdivision)
    (locations : List LocationCandidate) : Except String RawNameSets :=
  locations.foldlM (process_location countries_get subdivisions_get) empty_raw_sets

/-- A small concrete country table: only the code "US" resolves. -/
def demo_countries : String → Option Country := fun c =>
  if c = "US" then Option.some ⟨"US", "United States", "Country(alpha_2=US, name=United States)"⟩
  else Option.none

/-- A small concrete subdivision table keyed by full code, as pycountry is:
only "US-CA" resolves. -/
def demo_subdivisions : String → Option Subdivision := fun c =>
  if c = "US-CA" then Option.some ⟨"US-CA", "California"⟩
  else Option.none

/-- A location whose only field is an adminArea1 country code missing from
the table. -/
def loc_unknown_country : LocationCandidate :=
  ⟨Option.none, Option.none, Option.none, Option.none, Option.none,
   Option.none, Option.some "XX", Option.none⟩

/-- A location carrying a resolvable country code and a subdivision code. -/
def loc_us_ca : LocationCandidate :=
  ⟨Option.none, Option.none, Option.none, Option.none, Option.some "CA",
   Option.none, Option.some "US", Option.none⟩

/-- C4: `get_names` does NOT survive a country-code lookup miss: on a
candidate whose adminArea1 is the unknown code "XX", `countries.get` returns
None and the immediate `.name` access raises AttributeError, crashing the
aggregator instead of soft-dropping the value. -/
theorem get_names_lookup_miss_crash :
    get_names demo_countries demo_subdivisions [loc_unknown_country] =
      Except.error "AttributeError: NoneType object has no attribute name" := by
  rfl

/-- C5: on a candidate with adminArea1 = "US" and adminArea3 = "CA", the
adminArea3 set receives the raw return of `subdivisions.get` — here Python
None, because the lookup key is built from the Country object's repr rather
than its alpha-2 code — and not the subdivision display name "California";
the stored value is not a display-name string at all. -/
theorem get_names_adminArea3_raw :
    get_names demo_countries demo_subdivisions [loc_us_ca] =
      Except.ok ⟨[], [], [], [], [PyVal.pynone], [], [PyVal.str "United States"], []⟩
    ∧ PyVal.pynone ≠ PyVal.str "California" := by
  exact ⟨rfl, by decide⟩

/- ================= CoordinateExtractor ================= -/

/-- An EXIF unsigned rational: numerator and denominator. -/
structure ExifRational where
  num : ℕ
  den : ℕ
deriving DecidableEq

/-- One GPS axis: degree, minute and second rationals. -/
structure GpsAxis where
  degrees : ExifRational
  minutes : ExifRational
  seconds : ExifRational
deriving DecidableEq

/-- The GPSInfo block read by `get_coordinates`: both axes plus the
hemisphere reference strings. -/
structure GpsInfo where
  lat : GpsAxis
  lng : GpsAxis
  latRef : String
  lngRef : String
deriving DecidableEq

def rational_val (r : ExifRational) : ℚ := (r.num : ℚ) / r.den

/-- `deg + min/60 + sec/3600` for one axis, exactly as grouped in the
source. -/
def axis_val (a : GpsAxis) : ℚ :=
  rational_val a.degrees + rational_val a.minutes / 60 + rational_val a.seconds / 3600

/-- True when some denominator on either axis is zero, in which case the
Python divisions raise ZeroDivisionError. -/
def has_zero_den (g : GpsInfo) : Prop :=
  g.lat.degrees.den = 0 ∨ g.lat.minutes.den = 0 ∨ g.lat.seconds.den = 0
  ∨ g.lng.degrees.den = 0 ∨ g.lng.minutes.den = 0 ∨ g.lng.seconds.den = 0

instance (g : GpsInfo) : Decidable (has_zero_den g) := by
  unfold has_zero_den; infer_instance

/-- `get_coordinates` from src/main.py: `Option.none` models both the
missing-GPSInfo early return and a ZeroDivisionError; otherwise each axis is
converted to a decimal and negated unless the reference is N (latitude)
resp. E (longitude). -/
def get_coordinates : Option GpsInfo → Option (ℚ × ℚ)
  | Option.none => Option.none
  | Option.some g =>
    if has_zero_den g then Option.none
    else
      let latitude := axis_val g.lat
      let longitude := axis_val g.lng
      let latitude := if g.latRef ≠ "N" then -latitude else latitude
      let longitude := if g.lngRef ≠ "E" then -longitude else longitude
      Option.some (latitude, longitude)

/-- C7: for every GPS record with non-zero denominators, `get_coordinates`
returns, per axis, deg_num/deg_den + (min_num/min_den)/60 +
(sec_num/sec_den)/3600, negating latitude unless the reference is N and
longitude unless it is E, with no rounding (the value is the exact
rational). -/
theorem get_coordinates_spec (g : GpsInfo)
    (h1 : g.lat.degrees.den ≠ 0) (h2 : g.lat.minutes.den ≠ 0)
    (h3 : g.lat.seconds.den ≠ 0) (h4 : g.lng.degrees.den ≠ 0)
    (h5 : g.lng.minutes.den ≠ 0) (h6 : g.lng.seconds.den ≠ 0) :
    get_coordinates (Option.some g) = Option.some
      ((if g.latRef = "N"
        then (g.lat.degrees.num : ℚ) / g.lat.degrees.den
          + ((g.lat.minutes.num : ℚ) / g.lat.minutes.den) / 60
          + ((g.lat.seconds.num : ℚ) / g.lat.seconds.den) / 3600
        else -((g.lat.degrees.num : ℚ) / g.lat.degrees.den
          + ((g.lat.minutes.num : ℚ) / g.lat.minutes.den) / 60
          + ((g.lat.seconds.num : ℚ) / g.lat.seconds.den) / 3600)),
       (if g.lngRef = "E"
        then (g.lng.degrees.num : ℚ) / g.lng.degrees.den
          + ((g.lng.minutes.num : ℚ) / g.lng.minutes.den) / 60
          + ((g.lng.seconds.num : ℚ) / g.lng.seconds.den) / 3600
        else -((g.lng.degrees.num : ℚ) / g.lng.degrees.den
          + ((g.lng.minutes.num : ℚ) / g.lng.minutes.den) / 60
          + ((g.lng.seconds.num : ℚ) / g.lng.seconds.den) / 3600))) := by
  have hz : ¬ has_zero_den g := by
    unfold has_zero_den; tauto
  simp only [get_coordinates]
  rw [if_neg hz]
  unfold axis_val rational_val
  by_cases hN : g.latRef = "N" <;> by_cases hE : g.lngRef = "E" <;>
    simp [hN, hE]

/-- A concrete GPS record: 51 deg 30 min N, 0 deg 7 min (reference W). -/
def demo_gps : GpsInfo :=
  ⟨⟨⟨51, 1⟩, ⟨30, 1⟩, ⟨0, 1⟩⟩, ⟨⟨0, 1⟩, ⟨7, 1⟩, ⟨0, 1⟩⟩, "N", "W"⟩

/-- C7 witness: the spec theorem applied to `demo_gps`, whose denominators
are all 1, producing latitude 51.5 and longitude -7/60. -/
theorem get_coordinates_spec_witness :
    get_coordinates (Option.some demo_gps) = Option.some ((103 : ℚ) / 2, -(7 : ℚ) / 60) := by
  rw [get_coordinates_spec demo_gps (by decide) (by decide) (by decide)
    (by decide) (by decide) (by decide)]
  have hN : demo_gps.latRef = "N" := by decide
  have hW : ¬ (demo_gps.lngRef = "E") := by decide
  rw [if_pos hN, if_neg hW]
  norm_num [demo_gps]

/- ================= FontFitter ================= -/

/-- The early-exit condition of `get_font` at one candidate size, without the
forced stop: the measured text width exceeds 80 percent of `width - 2x`
while the measured height is still under 80 percent of `height - 2y`.
`measure` is the external `font.getsize` oracle for the fixed text, mapping a
font size to measured (width, height) pixels; the 0.8 factor is modelled
exactly as 4/5 in `ℚ`. -/
def size_fits (measure : ℕ → ℕ × ℕ) (x y : ℤ) (w h : ℕ) (s : ℕ) : Bool :=
  decide ((((measure s).1 : ℚ) > (4 / 5) * ((w : ℚ) - 2 * (x : ℚ)))
    ∧ (((measure s).2 : ℚ) < (4 / 5) * ((h : ℚ) - 2 * (y : ℚ))))

/-- The full loop condition of `get_font`: the fit condition, or the forced
stop at size 149. -/
def font_trigger (measure : ℕ → ℕ × ℕ) (x y : ℤ) (w h : ℕ) (s : ℕ) : Bool :=
  size_fits measure x y w h s || s == 149

/-- The `for font_size in range(20, 150)` loop of `get_font`, with explicit
fuel: at each size, if the trigger fires return that size minus the fixed
10-unit margin, otherwise try the next size. -/
def font_scan (measure : ℕ → ℕ × ℕ) (x y : ℤ) (w h : ℕ) : ℕ → ℕ → Option ℕ
  | 0, _ => Option.none
  | fuel + 1, s =>
    if font_trigger measure x y w h s then Option.some (s - 10)
    else font_scan measure x y w h fuel (s + 1)

/-- `get_font` from src/main.py, returning the size of the font it builds
(the source returns `ImageFont.truetype(name, font_size - 10)`); the implicit
Python None return after the loop is `Option.none` (unreachable, since size
149 always triggers). -/
def get_font (measure : ℕ → ℕ × ℕ) (x y : ℤ) (w h : ℕ) : Option ℕ :=
  font_scan measure x y w h 130 20

lemma font_scan_first (measure : ℕ → ℕ × ℕ) (x y : ℤ) (w h : ℕ) :
    ∀ fuel s, s + fuel = 150 → s ≤ 149 →
      ∃ fs, s ≤ fs ∧ fs ≤ 149 ∧ font_trigger measure x y w h fs = true
        ∧ (∀ t, s ≤ t → t < fs → font_trigger measure x y w h t = false)
        ∧ font_scan measure x y w h fuel s = Option.some (fs - 10) := by
  intro fuel
  induction fuel with
  | zero => intro s hsum hle; omega
  | succ n ih =>
    intro s hsum hle
    by_cases htrig : font_trigger measure x y w h s = true
    · refine ⟨s, le_refl s, hle, htrig, ?_, ?_⟩
      · intro t ht1 ht2; omega
      · simp [font_scan, htrig]
    · rw [Bool.not_eq_true] at htrig
      have hne : s ≠ 149 := by
        intro hs
        rw [hs] at htrig
        simp [font_trigger] at htrig
      obtain ⟨fs, hfs1, hfs2, hfs3, hfs4, hfs5⟩ := ih (s + 1) (by omega) (by omega)
      refine ⟨fs, by omega, hfs2, hfs3, ?_, ?_⟩
      · intro t ht1 ht2
        rcases Nat.eq_or_lt_of_le ht1 with heq | hlt
        · rw [← heq]; exact htrig
        · exact hfs4 t hlt ht2
      · rw [show font_scan measure x y w h (n + 1) s
            = if font_trigger measure x y w h s then Option.some (s - 10)
              else font_scan measure x y w h n (s + 1) from rfl]
        rw [htrig]
        simpa using hfs5

/-- C8: `get_font` scans sizes linearly from 20 upward and returns the first
size at which the measured width exceeds 80 percent of the available width
while the measured height is under 80 percent of the available height, minus
the fixed 10-unit margin; when no size below 149 fits, it force-stops at 149
and returns 139. -/
theorem get_font_first_fit (measure : ℕ → ℕ × ℕ) (x y : ℤ) (w h : ℕ) :
    ∃ fs, 20 ≤ fs ∧ fs ≤ 149
      ∧ (size_fits measure x y w h fs = true ∨ fs = 149)
      ∧ (∀ t, 20 ≤ t → t < fs → size_fits measure x y w h t = false)
      ∧ get_font measure x y w h = Option.some (fs - 10)
      ∧ ((∀ t, 20 ≤ t → t < 149 → size_fits measure x y w h t = false) →
          get_font measure x y w h = Option.some 139) := by
  obtain ⟨fs, hfs1, hfs2, hfs3, hfs4, hfs5⟩ :=
    font_scan_first measure x y w h 130 20 rfl (by omega)
  have htrig : size_fits measure x y w h fs = true ∨ fs = 149 := by
    have := hfs3
    simp only [font_trigger, Bool.or_eq_true, beq_iff_eq] at this
    exact this
  refine ⟨fs, hfs1, hfs2, htrig, ?_, hfs5, ?_⟩
  · intro t ht1 ht2
    have := hfs4 t ht1 ht2
    simp only [font_trigger, Bool.or_eq_false_iff] at this
    exact this.1
  · intro hall
    have hfs149 : fs = 149 := by
      rcases htrig with hsf | h149
      · by_contra hne
        have hlt : fs < 149 := by omega
        rw [hall fs hfs1 hlt] at hsf
        exact Bool.false_ne_true hsf
      · exact h149
    show font_scan measure x y w h 130 20 = Option.some 139
    rw [hfs5, hfs149]

/-- C10: whenever the measured width at the minimum size 20 already exceeds
80 percent of the available width while the measured height is under 80
percent of the available height, `get_font` returns 20 - 10 = 10, a size
strictly below the stated 20-point minimum of its search range. -/
theorem get_font_min_size (measure : ℕ → ℕ × ℕ) (x y : ℤ) (w h : ℕ)
    (hfit : size_fits measure x y w h 20 = true) :
    get_font measure x y w h = Option.some 10 ∧ 10 < 20 := by
  constructor
  · have htrig : font_trigger measure x y w h 20 = true := by
      simp [font_trigger, hfit]
    rw [show get_font measure x y w h
        = if font_trigger measure x y w h 20 then Option.some (20 - 10)
          else font_scan measure x y w h 129 21 from rfl]
    rw [htrig]
    rfl
  · omega

/-- The `font.getsize` oracle of a text so wide that it overflows already at
size 20 on a 500 x 500 canvas. -/
def demo_measure : ℕ → ℕ × ℕ := fun s => (100 * s, s)

/-- C10 witness: with `demo_measure`, coordinates (10, 10) and a 500 x 500
canvas, size 20 measures 2000 x 20 against an available 384 x 384, so the fit
condition holds at 20 and `get_font` returns 10. -/
theorem get_font_min_size_witness :
    size_fits demo_measure 10 10 500 500 20 = true
    ∧ get_font demo_measure 10 10 500 500 = Option.some 10 :=
  ⟨by simp only [size_fits, demo_measure]; norm_num,
   (get_font_min_size demo_measure 10 10 500 500
     (by simp only [size_fits, demo_measure]; norm_num)).1⟩

/- ================= ImageComposer: text box sampling and pipeline ================= -/

/-- `get_text_box` from src/main.py: given the text anchor, the measured text
dimensions and the image dimensions, it returns the 4-tuple
`(x, y, min(est_w, image.width - x), min(est_h, image.height - y))` that
`create_image` passes to PIL `crop` as the box to sample for the color
decision. -/
def get_text_box (x y estW estH imgW imgH : ℤ) : ℤ × ℤ × ℤ × ℤ :=
  (x, y, min estW (imgW - x), min estH (imgH - y))

/-- Membership in the region a PIL crop box selects: the box entries are
absolute left, upper, right and lower coordinates, the right and lower ones
exclusive. -/
def box_region (box : ℤ × ℤ × ℤ × ℤ) (px py : ℤ) : Prop :=
  box.1 ≤ px ∧ px < box.2.2.1 ∧ box.2.1 ≤ py ∧ py < box.2.2.2

/-- The label's destination rectangle as the claim states it: top-left corner
at the text anchor, width and height equal to the measured text dimensions
clamped to the image bounds. -/
def dest_region (x y estW estH imgW imgH px py : ℤ) : Prop :=
  x ≤ px ∧ px < x + min estW (imgW - x) ∧ y ≤ py ∧ py < y + min estH (imgH - y)

/-- C9: the region sampled for the color decision is NOT the label's
destination rectangle: `create_image` passes `(x, y, width, height)` to PIL
`crop`, which reads the last two entries as absolute right/lower coordinates.
For a label anchored at (10, 10) measuring 100 x 40 on a 1800 x 1200 image,
the destination rectangle reaches the point (105, 20) but the sampled region
(stopping at x-coordinate 100 instead of 110) does not. -/
theorem get_text_box_wrong_region :
    get_text_box 10 10 100 40 1800 1200 = (10, 10, 100, 40)
    ∧ dest_region 10 10 100 40 1800 1200 105 20
    ∧ ¬ box_region (get_text_box 10 10 100 40 1800 1200) 105 20 := by
  refine ⟨rfl, ?_, ?_⟩
  · unfold dest_region; norm_num
  · unfold box_region get_text_box; norm_num

/-- A rendered postcard: its placement tag, text anchor and font size. -/
structure RenderedPostcard where
  tag : String
  x : ℚ
  y : ℚ
  fontSize : ℕ
deriving DecidableEq

/-- `get_text_locations` from src/main.py: the anchor for each requested
placement, computed from the measured text dimensions (0.8 modelled as
4/5 in `ℚ`). -/
def get_text_locations (id : String) (tw th : ℕ) (w h : ℕ) :
    List (String × ℚ × ℚ) :=
  if id = "NW" then [("NW", (10, 10))]
  else if id = "NE" then [("NE", ((4 / 5) * (w : ℚ) - tw - 10, 10))]
  else if id = "SW" then [("SW", (10, (h : ℚ) - th - 10))]
  else if id = "SE" then [("SE", ((4 / 5) * (w : ℚ) - tw - 10, (h : ℚ) - th - 10))]
  else [("NW", (10, 10)),
        ("NE", ((4 / 5) * (w : ℚ) - tw - 10, 10)),
        ("SW", (10, (h : ℚ) - th - 10)),
        ("SE", ((4 / 5) * (w : ℚ) - tw - 10, (h : ℚ) - th - 10))]

/-- `create_images` from src/main.py after the image has been loaded: the
chosen name (possibly Python None) is handed to `get_font`, whose very first
`font.getsize(text)` call raises TypeError when the text is None — before the
source image is persisted and before any postcard is rendered.  With an
actual string, one postcard per requested placement is produced.
`measure text` is the external `font.getsize` oracle. -/
def create_images (measure : String → ℕ → ℕ × ℕ) (nm : Option String)
    (textLocation : String) (w h : ℕ) : Except String (List RenderedPostcard) :=
  match nm with
  | Option.none => Except.error "TypeError: text must be a string, not NoneType"
  | Option.some text =>
    match get_font (measure text) 10 10 w h with
    | Option.none => Except.error "TypeError: font is None"
    | Option.some fs =>
      let tdims := measure text fs
      Except.ok ((get_text_locations textLocation tdims.1 tdims.2 w h).map
        (fun p => ⟨p.1, p.2.1, p.2.2, fs⟩))

/-- The name-handling tail of `process_image` from src/main.py: the result of
`choose_name` is passed straight into `create_images` with no check. -/
def process_image_names (measure : String → ℕ → ℕ × ℕ)
    (ns : NameCandidateSet) (textLocation : String) (w h : ℕ) :
    Except String (List RenderedPostcard) :=
  create_images measure (choose_name ns) textLocation w h

/-- A `font.getsize` oracle for the pipeline theorems. -/
def demo_text_measure : String → ℕ → ℕ × ℕ := fun _ s => (5 * s, s)

/-- C6: when `choose_name` finds no name (here: the only candidate is the
digit-bearing street "123 Main St"), `process_image` does not report failure:
the None result flows into `create_images`, where `font.getsize(None)` raises
an uncaught TypeError — the run aborts with an exception instead of the
reported per-photo failure the spec requires, and no postcard is rendered or
persisted only because of that crash. -/
theorem pipeline_no_name_crash :
    choose_name street_only_set = Option.none
    ∧ process_image_names demo_text_measure street_only_set "NW" 1800 1200 =
        Except.error "TypeError: text must be a string, not NoneType" :=
  ⟨rfl, rfl⟩
